import Mathlib

/-!
# Verification of the polar-plant dashboard (`src/main.py`)

A shallow embedding of the data-loading and aggregation logic of the
Streamlit dashboard in `src/main.py`, together with theorems settling the
specification claims about it.

Modelling conventions:
* A pandas table is a list of rows; a row is an association list from
  column names to cells; a cell is `Option ℚ` (`none` models NaN/missing).
* The filesystem `data` directory is `Option (List FileEntry)`:
  `none` models a non-existent directory, and the list order models
  `Path.iterdir()` iteration order.
* Python code that can raise is embedded as `Except String _`; an
  `Except.error` value models an uncaught Python exception propagating
  out of the corresponding code.
* `unicodedata.normalize("NFC", s)` is modelled by canonical Hangul
  composition (the algorithmic part of NFC, which is the mechanism the
  dashboard relies on for Korean filenames); characters outside the
  Hangul-jamo composition domain are left unchanged.
-/

set_option autoImplicit false

namespace Dashboard

/-- A cell of a pandas table: `none` models NaN/missing. -/
abbrev Cell := Option ℚ

/-- A row of a pandas table: column name to cell. -/
abbrev Row := List (String × Cell)

/-- A pandas table (`DataFrame`): a list of rows. -/
abbrev Table := List Row

/-- The content of a file on disk, as far as the dashboard reads it:
a CSV table, an Excel workbook (ordered sheets, keyed by sheet name),
or anything else. -/
inductive FileContent where
  | csv (table : Table)
  | xlsx (sheets : List (String × Table))
  | other
deriving DecidableEq

/-- A directory entry: a name plus the content behind it. -/
structure FileEntry where
  name : String
  content : FileContent
deriving DecidableEq

/-! ## Hangul canonical composition (model of `unicodedata.normalize("NFC", ·)`) -/

/-- First Hangul syllable codepoint (U+AC00). -/
def SBase : Nat := 0xAC00

/-- First leading-consonant jamo codepoint (U+1100). -/
def LBase : Nat := 0x1100

/-- First vowel jamo codepoint (U+1161). -/
def VBase : Nat := 0x1161

/-- Trailing-consonant jamo base codepoint (U+11A7). -/
def TBase : Nat := 0x11A7

/-- Number of leading consonants. -/
def LCount : Nat := 19

/-- Number of vowels. -/
def VCount : Nat := 21

/-- Number of trailing consonants (including the empty one). -/
def TCount : Nat := 28

/-- Number of precomposed Hangul syllables. -/
def SCount : Nat := 11172

/-- Is `c` a leading-consonant jamo? -/
def isHangulL (c : Nat) : Bool := decide (LBase ≤ c ∧ c < LBase + LCount)

/-- Is `c` a vowel jamo? -/
def isHangulV (c : Nat) : Bool := decide (VBase ≤ c ∧ c < VBase + VCount)

/-- Is `c` a (non-empty) trailing-consonant jamo? -/
def isHangulT (c : Nat) : Bool := decide (TBase < c ∧ c < TBase + TCount)

/-- Is `c` a precomposed LV syllable (no trailing consonant)? -/
def isHangulLV (c : Nat) : Bool :=
  decide (SBase ≤ c ∧ c < SBase + SCount ∧ (c - SBase) % TCount = 0)

/-- One pass of canonical Hangul composition over a codepoint sequence,
carrying the previous codepoint, exactly as in the Unicode NFC algorithm:
L+V composes to an LV syllable, LV+T composes to an LVT syllable. -/
def composeHangul (prev : Nat) : List Nat → List Nat
  | [] => [prev]
  | c :: rest =>
    if isHangulL prev && isHangulV c then
      composeHangul (SBase + ((prev - LBase) * VCount + (c - VBase)) * TCount) rest
    else if isHangulLV prev && isHangulT c then
      composeHangul (prev + (c - TBase)) rest
    else
      prev :: composeHangul c rest

/-- Model of `normalize_text` (`src/main.py` line 33):
`unicodedata.normalize("NFC", text)`, realised as canonical Hangul
composition and the identity on all other characters. -/
def normalize_text (text : String) : String :=
  match text.toList.map Char.toNat with
  | [] => ""
  | c :: rest => String.mk ((composeHangul c rest).map Char.ofNat)

/-- Model of `find_file_by_name` (`src/main.py` lines 36-41): scan the directory in
iteration order and return the first entry whose NFC-normalized name equals
the NFC-normalized target; `none` is the explicit not-found result. -/
def find_file_by_name (directory : List FileEntry) (target_name : String) :
    Option FileEntry :=
  match directory with
  | [] => none
  | file :: rest =>
    if normalize_text file.name = normalize_text target_name then some file
    else find_file_by_name rest target_name

/-! ## Python path and pandas primitives used by the loaders -/

/-- Model of `pathlib.PurePath.suffix`: the last dot-suffix of the name,
including the dot; empty when the name has no dot, starts with its only
dot, or ends with the dot. -/
def pathSuffix (name : String) : String :=
  let l := name.toList
  match (l.reverse).findIdx? (fun c => c == '.') with
  | none => ""
  | some k =>
    let i := l.length - 1 - k
    if 0 < i ∧ i < l.length - 1 then String.mk (l.drop i) else ""

/-- ASCII lowercasing of a string, character by character (model of
`str.lower()` on the ASCII file extensions compared here). -/
def lowerAscii (s : String) : String := String.mk (s.toList.map Char.toLower)

/-- The growth loader's workbook test (`src/main.py` line 81):
`f.suffix.lower() == ".xlsx"`. -/
def isXlsxName (name : String) : Bool := lowerAscii (pathSuffix name) == ".xlsx"

/-- Model of `pd.read_csv` on a resolved entry: yields the table when the
file is a CSV, otherwise raises. -/
def read_csv (f : FileEntry) : Except String Table :=
  match f.content with
  | .csv t => .ok t
  | _ => .error ("ParserError: " ++ f.name)

/-- Model of `pd.ExcelFile` + reading every sheet (`src/main.py`
lines 90-94): yields the sheet list when the file is a workbook,
otherwise raises. -/
def readWorkbook (f : FileEntry) : Except String (List (String × Table)) :=
  match f.content with
  | .xlsx sheets => .ok sheets
  | _ => .error ("ValueError: Excel file format cannot be determined: " ++ f.name)

/-- Model of `pd.concat`: concatenates the rows of the given tables;
raises `ValueError` when given no objects, exactly as pandas does. -/
def pdConcat (ts : List Table) : Except String Table :=
  if ts.isEmpty then .error "ValueError: No objects to concatenate"
  else .ok ts.flatten

/-- The cell of row `r` in column `c` (missing column reads as NaN,
matching pandas column alignment under concatenation). -/
def getCell (r : Row) (c : String) : Cell :=
  match r.find? (fun p => p.1 == c) with
  | some p => p.2
  | none => none

/-- The column `c` of table `t`, as a pandas Series. -/
def getCol (t : Table) (c : String) : List Cell := t.map (fun r => getCell r c)

/-- Model of `Series.mean()`: NaN cells are skipped; the mean of an empty
(or all-NaN) series is NaN, modelled as `none`. -/
def seriesMean (l : List Cell) : Option ℚ :=
  let vs := l.filterMap id
  if vs.isEmpty then none else some (vs.sum / (vs.length : ℚ))

/-! ## Data loading (`load_environment_data`, `load_growth_data`) -/

/-- The result a loader hands to the rest of the dashboard: the `st.error`
messages it displayed, and the site-to-table dict in insertion order. -/
structure LoadResult where
  messages : List String
  data : List (String × Table)
deriving DecidableEq

/-- The fixed per-site environmental CSV filenames
(`src/main.py` lines 53-58). -/
def env_files : List String :=
  ["송도고_환경데이터.csv", "하늘고_환경데이터.csv", "아라고_환경데이터.csv", "동산고_환경데이터.csv"]

/-- Model of `fname.split("_")[0]` (`src/main.py` line 69): the part of the
filename before the first underscore. -/
def schoolOf (fname : String) : String :=
  String.mk (fname.toList.takeWhile (fun c => c != '_'))

/-- The per-file loop of `load_environment_data` (`src/main.py`
lines 63-71): for each expected filename, resolve it with
`find_file_by_name`; on failure display an error and continue; on success
read the CSV into the dict under the school name. -/
def loadEnvLoop (dir : List FileEntry) : List String → Except String LoadResult
  | [] => .ok ⟨[], []⟩
  | fname :: rest =>
    match find_file_by_name dir fname with
    | none =>
      match loadEnvLoop dir rest with
      | .ok r => .ok ⟨(fname ++ " 파일을 찾을 수 없습니다.") :: r.messages, r.data⟩
      | .error e => .error e
    | some f =>
      match read_csv f with
      | .error e => .error e
      | .ok df =>
        match loadEnvLoop dir rest with
        | .ok r => .ok ⟨r.messages, (schoolOf fname, df) :: r.data⟩
        | .error e => .error e

/-- Model of `load_environment_data` (`src/main.py` lines 46-73): when the data
directory does not exist, display a directory-missing error and return the
empty dict; otherwise run the per-file loop. -/
def load_environment_data (dataDir : Option (List FileEntry)) :
    Except String LoadResult :=
  match dataDir with
  | none => .ok ⟨["data 폴더를 찾을 수 없습니다."], []⟩
  | some dir => loadEnvLoop dir env_files

/-- Model of `load_growth_data` (`src/main.py` lines 75-96): iterate the data
directory (`Path.iterdir` raises `FileNotFoundError` when the directory
does not exist — the code performs no existence check), take the first
entry whose lowercased suffix is `.xlsx`; if none, display an error and
return the empty dict; otherwise read every sheet of the workbook into the
dict keyed by sheet name, in sheet order. -/
def load_growth_data (dataDir : Option (List FileEntry)) :
    Except String LoadResult :=
  match dataDir with
  | none => .error "FileNotFoundError: [Errno 2] No such file or directory: 'data'"
  | some dir =>
    match dir.find? (fun f => isXlsxName f.name) with
    | none => .ok ⟨["생육 결과 XLSX 파일을 찾을 수 없습니다."], []⟩
    | some f =>
      match readWorkbook f with
      | .ok sheets => .ok ⟨[], sheets⟩
      | .error e => .error e

/-! ## Meta information (`EC_INFO`, `SCHOOL_COLORS`) -/

/-- The dict `EC_INFO` (`src/main.py` lines 104-109): the fixed site list, each with
its target EC value, in the fixed site-name order. -/
def EC_INFO : List (String × ℚ) :=
  [("송도고", 1), ("하늘고", 2), ("아라고", 4), ("동산고", 8)]

/-- The dict `SCHOOL_COLORS` (`src/main.py` lines 111-116). -/
def SCHOOL_COLORS : List (String × String) :=
  [("송도고", "#1f77b4"), ("하늘고", "#2ca02c"), ("아라고", "#ff7f0e"), ("동산고", "#d62728")]

/-- Model of Python `dict.get`: the value of the first matching key. -/
def dictGet {α : Type} (m : List (String × α)) (k : String) : Option α :=
  (m.find? (fun p => p.1 == k)).map (fun p => p.2)

/-! ## Tab 1: overview (`src/main.py` lines 141-175) -/

/-- One row of the overview summary table: school name, target EC,
row count, display color. -/
structure SummaryRow where
  school : String
  ecTarget : Option ℚ
  count : Nat
  color : String
deriving DecidableEq

/-- One iteration of the summary loop of tab 1 (`src/main.py`
lines 151-159): append one summary row for the sheet and add its row count
to the running total. -/
def tab1Step (acc : List SummaryRow × Nat) (p : String × Table) :
    List SummaryRow × Nat :=
  (acc.1 ++ [⟨p.1, dictGet EC_INFO p.1, p.2.length,
      (dictGet SCHOOL_COLORS p.1).getD "#000000"⟩],
   acc.2 + p.2.length)

/-- The summary loop of tab 1 (`src/main.py` lines 148-159): fold over the
growth dict in iteration order, appending one summary row per sheet and
accumulating the total plant count. -/
def tab1Loop (growthData : List (String × Table)) : List SummaryRow × Nat :=
  growthData.foldl tab1Step ([], 0)

/-- The overview summary table (`summary_df`, `src/main.py` lines 161-164). -/
def summaryRows (growthData : List (String × Table)) : List SummaryRow :=
  (tab1Loop growthData).1

/-- The running total `total_plants` (`src/main.py` lines 149-153). -/
def totalPlants (growthData : List (String × Table)) : Nat :=
  (tab1Loop growthData).2

/-- What tab 1 finally displays in its four metric widgets
(`src/main.py` lines 148-175). -/
structure Tab1View where
  summary : List SummaryRow
  total : Nat
  avgTemp : Option ℚ
  avgHum : Option ℚ
  optimalEC : String
deriving DecidableEq

/-- Rendering tab 1 (`src/main.py` lines 148-175): build the summary
table from the growth dict, then compute `avg_temp` and `avg_hum` by
concatenating every environmental table (`pd.concat` raises when the
environmental dict is empty), and display the four metrics — the fourth,
"최적 EC", is the string literal `"2.0 (하늘고)"`. -/
def renderTab1 (envData growthData : List (String × Table)) :
    Except String Tab1View :=
  match pdConcat (envData.map (fun p => p.2)) with
  | .error e => .error e
  | .ok allEnv =>
    .ok ⟨summaryRows growthData, totalPlants growthData,
         seriesMean (getCol allEnv "temperature"),
         seriesMean (getCol allEnv "humidity"),
         "2.0 (하늘고)"⟩

/-! ## Tab 3: growth results (`src/main.py` lines 240-254) -/

/-- One row of `weight_df`: school, target EC, mean fresh weight. -/
structure WeightRow where
  school : String
  ec : Option ℚ
  meanWeight : Option ℚ
deriving DecidableEq

/-- The table `weight_df` (`src/main.py` lines 243-251): one row per growth sheet in
iteration order, with the mean of the `생중량(g)` column. -/
def weightRows (growthData : List (String × Table)) : List WeightRow :=
  growthData.map (fun p => ⟨p.1, dictGet EC_INFO p.1, seriesMean (getCol p.2 "생중량(g)")⟩)

/-- Model of `Series.idxmax` restricted to what `best_row` needs: the
position of the first occurrence of the maximum, skipping NaN entries,
together with that maximum. `none` when every entry is NaN or the series
is empty (pandas raises there). -/
def idxmaxCore : List (Option ℚ) → Option (Nat × ℚ)
  | [] => none
  | none :: rest => (idxmaxCore rest).map (fun p => (p.1 + 1, p.2))
  | some v :: rest =>
    match idxmaxCore rest with
    | none => some (0, v)
    | some (i, m) => if m > v then some (i + 1, m) else some (0, v)

/-- Model of `Series.idxmax` as used on `weight_df["평균 생중량"]`
(`src/main.py` line 253): raises on an empty or all-NaN series. -/
def idxmax (l : List (Option ℚ)) : Except String Nat :=
  match idxmaxCore l with
  | none => .error "ValueError: attempt to get argmax of an empty sequence"
  | some p => .ok p.1

/-- Model of `best_row` (`src/main.py` line 253):
`weight_df.loc[weight_df["평균 생중량"].idxmax()]`. -/
def best_row (growthData : List (String × Table)) : Except String WeightRow :=
  match idxmax ((weightRows growthData).map (fun r => r.meanWeight)) with
  | .error e => .error e
  | .ok i =>
    match (weightRows growthData)[i]? with
    | some r => .ok r
    | none => .error "IndexError"

/-! ## Helper lemmas about the file resolver -/

/-- A successful resolution returns a directory member whose normalized
name equals the normalized target. -/
lemma find_file_spec (dir : List FileEntry) (t : String) (f : FileEntry)
    (h : find_file_by_name dir t = some f) :
    f ∈ dir ∧ normalize_text f.name = normalize_text t := by
  induction dir with
  | nil => simp [find_file_by_name] at h
  | cons a rest ih =>
    rw [find_file_by_name] at h
    by_cases hc : normalize_text a.name = normalize_text t
    · simp [hc] at h
      subst h
      exact ⟨List.mem_cons_self a rest, hc⟩
    · simp [hc] at h
      obtain ⟨hmem, hnorm⟩ := ih h
      exact ⟨List.mem_cons_of_mem a hmem, hnorm⟩

/-- When some directory member matches under normalization, resolution
succeeds. -/
lemma find_file_isSome (dir : List FileEntry) (t : String)
    (h : ∃ f ∈ dir, normalize_text f.name = normalize_text t) :
    ∃ f, find_file_by_name dir t = some f := by
  induction dir with
  | nil => simp at h
  | cons a rest ih =>
    rw [find_file_by_name]
    by_cases hc : normalize_text a.name = normalize_text t
    · exact ⟨a, by simp [hc]⟩
    · simp [hc]
      obtain ⟨f, hf, hnorm⟩ := h
      rcases List.mem_cons.mp hf with rfl | hmem
      · exact absurd hnorm hc
      · exact ih ⟨f, hmem, hnorm⟩

/-- When no directory member matches under normalization, resolution
returns the explicit not-found value `none`. -/
lemma find_file_eq_none (dir : List FileEntry) (t : String)
    (h : ∀ f ∈ dir, normalize_text f.name ≠ normalize_text t) :
    find_file_by_name dir t = none := by
  induction dir with
  | nil => rfl
  | cons a rest ih =>
    rw [find_file_by_name]
    have ha := h a (List.mem_cons_self a rest)
    simp [ha]
    exact ih (fun f hf => h f (List.mem_cons_of_mem a hf))

/-- Resolution only depends on the target through its normalization. -/
lemma find_file_congr (dir : List FileEntry) (t t' : String)
    (h : normalize_text t = normalize_text t') :
    find_file_by_name dir t = find_file_by_name dir t' := by
  induction dir with
  | nil => rfl
  | cons a rest ih =>
    rw [find_file_by_name, find_file_by_name, h, ih]

/-! ## Claim theorems -/

/-- Claim C1: exact-mode file resolution returns a candidate entry if and
only if the candidate's NFC-normalized name equals the NFC-normalized
target; two targets equal up to Unicode normalization resolve identically;
and when no candidate matches, the result is the explicit not-found value
`none`, not an exception. -/
theorem exact_mode_resolution (dir : List FileEntry) (t : String) :
    (∀ f, find_file_by_name dir t = some f →
      f ∈ dir ∧ normalize_text f.name = normalize_text t)
  ∧ ((∃ f ∈ dir, normalize_text f.name = normalize_text t) →
      ∃ f, find_file_by_name dir t = some f)
  ∧ ((∀ f ∈ dir, normalize_text f.name ≠ normalize_text t) →
      find_file_by_name dir t = none)
  ∧ (∀ t', normalize_text t = normalize_text t' →
      find_file_by_name dir t = find_file_by_name dir t') :=
  ⟨fun f h => find_file_spec dir t f h,
   fun h => find_file_isSome dir t h,
   fun h => find_file_eq_none dir t h,
   fun t' h => find_file_congr dir t t' h⟩

/-- The directory entry `한.csv` with the composed syllable U+D55C. -/
def hanFile : FileEntry := ⟨"한.csv", .csv []⟩

/-- The same filename with the Hangul syllable in fully decomposed form
(U+1112 U+1161 U+11AB). -/
def hanDecomp : String :=
  String.mk [Char.ofNat 0x1112, Char.ofNat 0x1161, Char.ofNat 0x11AB, '.', 'c', 's', 'v']

/-- Witness for C1: searching for the decomposed spelling resolves exactly
like searching for the composed one, and a non-matching target yields the
explicit `none`. -/
theorem exact_mode_resolution_witness :
    find_file_by_name [hanFile] hanDecomp = find_file_by_name [hanFile] "한.csv"
  ∧ find_file_by_name [hanFile] "없음.csv" = none :=
  ⟨(exact_mode_resolution [hanFile] hanDecomp).2.2.2 "한.csv" (by decide),
   (exact_mode_resolution [hanFile] "없음.csv").2.2.1 (by decide)⟩

/-- The candidate directory from the spec's key-containment example. -/
def c2dir : List FileEntry :=
  [⟨"A_2024.csv", .csv []⟩, ⟨"A-2024.CSV", .csv []⟩, ⟨"a 2024.csv", .csv []⟩]

/-- Claim C2, counterexample: the program's only resolver,
`find_file_by_name`, finds nothing for the target key `"A"` among the
spec's example candidates `A_2024.csv`, `A-2024.CSV`, `a 2024.csv` — no
key-containment matching (and no extension filtering) happens anywhere in
the resolver. -/
theorem key_containment_mode_cex : find_file_by_name c2dir "A" = none := by
  decide

/-- Claim C2, amended: the resolver has a single, exact matching mode — a
candidate is returned only when its NFC-normalized name equals the
NFC-normalized target in full, so a short key such as `"A"` matches none
of the example candidates, while the full filename does; the only
extension-based, case-insensitive selection in the program is the growth
loader's `.xlsx` scan. -/
theorem key_containment_mode_amended :
    (∀ (dir : List FileEntry) (t : String) (f : FileEntry),
      find_file_by_name dir t = some f →
        normalize_text f.name = normalize_text t)
  ∧ find_file_by_name c2dir "A_2024.csv" = some ⟨"A_2024.csv", .csv []⟩
  ∧ isXlsxName "A-2024.CSV" = false :=
  ⟨fun dir t f h => (find_file_spec dir t f h).2, by decide, by decide⟩

/-- Witness for the amended C2: the exact-only property applied at the
first example candidate. -/
theorem key_containment_mode_amended_witness :
    normalize_text (FileEntry.mk "A_2024.csv" (.csv [])).name =
      normalize_text "A_2024.csv" :=
  key_containment_mode_amended.1 c2dir "A_2024.csv" ⟨"A_2024.csv", .csv []⟩
    (by decide)

/-- Claim C3, counterexample: with an empty environmental dict (exactly
what `load_environment_data` returns when the data directory is missing)
the overview tab's `pd.concat(env_data.values())` raises `ValueError`, and
with an empty growth dict `best_row`'s `idxmax` raises — exceptions do
propagate to a crash on empty datasets. -/
theorem no_crash_on_empty_cex :
    renderTab1 [] [] = .error "ValueError: No objects to concatenate"
  ∧ best_row [] = .error "ValueError: attempt to get argmax of an empty sequence" :=
  ⟨rfl, rfl⟩

/-- Claim C3, amended: the aggregated mean over an empty (zero-row) table
is the distinguished no-value result `none`, different from a real zero
(`some 0`), and that computation itself never raises; however, the
no-crash half of the claim fails: rendering the overview with an empty
environmental dict raises pandas' `ValueError` from `pd.concat`, as does
`best_row` on an empty growth dict. -/
theorem empty_mean_no_value_amended :
    seriesMean (getCol ([] : Table) "생중량(g)") = none
  ∧ seriesMean (getCol [[("생중량(g)", some 0)]] "생중량(g)") = some 0
  ∧ decide ((none : Option ℚ) = some (0 : ℚ)) = false
  ∧ renderTab1 [] [("송도고", [[("생중량(g)", some 1)]])] =
      .error "ValueError: No objects to concatenate" := by
  refine ⟨rfl, ?_, rfl, rfl⟩
  simp [seriesMean, getCol, getCell]

/-- An all-NaN (or empty) series has no argmax. -/
lemma idxmaxCore_none (l : List (Option ℚ)) (h : idxmaxCore l = none) :
    ∀ (j : Nat) (q : ℚ), l[j]? = some (some q) → False := by
  induction l with
  | nil => intro j q hj; simp at hj
  | cons hd tl ih =>
    intro j q hj
    cases hd with
    | none =>
      rw [idxmaxCore] at h
      rcases htl : idxmaxCore tl with _ | p <;> rw [htl] at h
      · cases j with
        | zero => simp at hj
        | succ j => exact ih htl j q (by simpa using hj)
      · simp at h
    | some v =>
      rw [idxmaxCore] at h
      rcases htl : idxmaxCore tl with _ | ⟨i, m⟩ <;> rw [htl] at h
      · simp at h
      · by_cases hvm : m > v <;> simp [hvm] at h

/-- The function `idxmaxCore` returns the position of the first occurrence of the
maximum among the non-NaN entries, together with that maximum. -/
lemma idxmaxCore_spec (l : List (Option ℚ)) (i : Nat) (m : ℚ)
    (h : idxmaxCore l = some (i, m)) :
    l[i]? = some (some m)
  ∧ (∀ (j : Nat) (q : ℚ), l[j]? = some (some q) → q ≤ m)
  ∧ (∀ (j : Nat), j < i → ∀ (q : ℚ), l[j]? = some (some q) → q < m) := by
  induction l generalizing i m with
  | nil => simp [idxmaxCore] at h
  | cons hd tl ih =>
    cases hd with
    | none =>
      rw [idxmaxCore] at h
      rcases htl : idxmaxCore tl with _ | ⟨i', m'⟩ <;> rw [htl] at h
      · simp at h
      · simp only [Option.map_some', Option.some.injEq, Prod.mk.injEq] at h
        obtain ⟨rfl, rfl⟩ := h
        obtain ⟨h1, h2, h3⟩ := ih i' m' htl
        refine ⟨by simpa using h1, ?_, ?_⟩
        · intro j q hj
          cases j with
          | zero => simp at hj
          | succ j => exact h2 j q (by simpa using hj)
        · intro j hji q hj
          cases j with
          | zero => simp at hj
          | succ j => exact h3 j (by omega) q (by simpa using hj)
    | some v =>
      rw [idxmaxCore] at h
      rcases htl : idxmaxCore tl with _ | ⟨i', m'⟩ <;> rw [htl] at h
      · simp only [Option.some.injEq, Prod.mk.injEq] at h
        obtain ⟨rfl, rfl⟩ := h
        refine ⟨by simp, ?_, ?_⟩
        · intro j q hj
          cases j with
          | zero =>
            simp only [List.getElem?_cons_zero, Option.some.injEq] at hj
            obtain rfl : v = q := by simpa using hj
            exact le_refl _
          | succ j =>
            exact absurd (by simpa using hj)
              (fun hh => idxmaxCore_none tl htl j q hh)
        · intro j hj; omega
      · by_cases hgt : m' > v
        · simp only [hgt, if_true, Option.some.injEq, Prod.mk.injEq] at h
          obtain ⟨rfl, rfl⟩ := h
          obtain ⟨h1, h2, h3⟩ := ih i' m' htl
          refine ⟨by simpa using h1, ?_, ?_⟩
          · intro j q hj
            cases j with
            | zero =>
              obtain rfl : v = q := by simpa using hj
              exact le_of_lt hgt
            | succ j => exact h2 j q (by simpa using hj)
          · intro j hji q hj
            cases j with
            | zero =>
              obtain rfl : v = q := by simpa using hj
              exact hgt
            | succ j => exact h3 j (by omega) q (by simpa using hj)
        · simp only [hgt, if_false, Option.some.injEq, Prod.mk.injEq] at h
          obtain ⟨rfl, rfl⟩ := h
          obtain ⟨h1, h2, h3⟩ := ih i' m' htl
          refine ⟨by simp, ?_, ?_⟩
          · intro j q hj
            cases j with
            | zero =>
              obtain rfl : v = q := by simpa using hj
              exact le_refl _
            | succ j =>
              exact le_trans (h2 j q (by simpa using hj)) (not_lt.mp hgt)
          · intro j hj; omega

/-- A single-column growth table with one plant of fresh weight 5 g. -/
def wtable : Table := [[("생중량(g)", some 5)]]

/-- A growth dict whose iteration (sheet) order puts 아라고 before 송도고,
with exactly equal mean fresh weights. -/
def g4 : List (String × Table) := [("아라고", wtable), ("송도고", wtable)]

/-- Claim C4, counterexample: with exactly equal mean weights, `best_row`
selects 아라고 — the first sheet in growth-dict iteration order — even
though 송도고 comes first in the fixed site-name list `EC_INFO`; the
tie-break does not follow the fixed site-name list order. -/
theorem best_site_tiebreak_cex :
    (weightRows g4).map (fun r => r.meanWeight) = [some 5, some 5]
  ∧ best_row g4 = .ok ⟨"아라고", some 4, some 5⟩
  ∧ EC_INFO.map Prod.fst = ["송도고", "하늘고", "아라고", "동산고"]
  ∧ decide (("아라고" : String) = "송도고") = false := by
  refine ⟨?_, ?_, by decide, by decide⟩
  · simp [weightRows, g4, wtable, seriesMean, getCol, getCell]
  · simp [best_row, weightRows, g4, wtable, dictGet, EC_INFO, seriesMean,
      getCol, getCell, idxmax, idxmaxCore]

/-- Claim C4, amended: `best_row` returns the row of `weight_df` holding
the maximum mean weight among the non-NaN means, and on exact ties the
tie-break deterministically favors the earliest row in growth-dict
iteration order (the workbook's sheet order), not the fixed site-name
list order. -/
theorem best_site_argmax_amended (g : List (String × Table)) (r : WeightRow)
    (h : best_row g = .ok r) :
    ∃ i : Nat, (weightRows g)[i]? = some r
      ∧ ∃ m : ℚ, r.meanWeight = some m
        ∧ (∀ (j : Nat) (v : WeightRow) (q : ℚ), (weightRows g)[j]? = some v →
            v.meanWeight = some q → q ≤ m)
        ∧ (∀ j : Nat, j < i → ∀ (v : WeightRow) (q : ℚ),
            (weightRows g)[j]? = some v → v.meanWeight = some q → q < m) := by
  rw [best_row] at h
  split at h
  · exact absurd h (by simp)
  rename_i i hx
  split at h
  swap
  · exact absurd h (by simp)
  rename_i r' hg
  simp only [Except.ok.injEq] at h
  subst h
  rw [idxmax] at hx
  rcases hc : idxmaxCore ((weightRows g).map fun r => r.meanWeight)
    with _ | ⟨i0, m⟩ <;> rw [hc] at hx
  · simp at hx
  simp only [Except.ok.injEq] at hx
  subst hx
  obtain ⟨h1, h2, h3⟩ :=
    idxmaxCore_spec ((weightRows g).map fun r => r.meanWeight) i0 m hc
  rw [List.getElem?_map, hg] at h1
  simp only [Option.map_some', Option.some.injEq] at h1
  refine ⟨i0, hg, m, h1, ?_, ?_⟩
  · intro j v q hj hq
    exact h2 j q (by rw [List.getElem?_map, hj, Option.map_some', hq])
  · intro j hji v q hj hq
    exact h3 j hji q (by rw [List.getElem?_map, hj, Option.map_some', hq])

/-- Witness for the amended C4: the general argmax property instantiated
at the concrete tied dict `g4`. -/
theorem best_site_argmax_amended_witness :
    ∃ i : Nat, (weightRows g4)[i]? = some ⟨"아라고", some 4, some 5⟩
      ∧ ∃ m : ℚ, (WeightRow.mk "아라고" (some 4) (some 5)).meanWeight = some m
        ∧ (∀ (j : Nat) (v : WeightRow) (q : ℚ), (weightRows g4)[j]? = some v →
            v.meanWeight = some q → q ≤ m)
        ∧ (∀ j : Nat, j < i → ∀ (v : WeightRow) (q : ℚ),
            (weightRows g4)[j]? = some v → v.meanWeight = some q → q < m) :=
  best_site_argmax_amended g4 ⟨"아라고", some 4, some 5⟩
    (by simp [best_row, weightRows, g4, wtable, dictGet, EC_INFO, seriesMean,
      getCol, getCell, idxmax, idxmaxCore])

/-- Claim C5: evaluation of both loaders at the missing-directory input.
The environmental loader reports the distinguishable directory-missing
message and returns the empty dict, but the growth loader raises
`FileNotFoundError` out of `Path.iterdir()` — it never checks that the
directory exists. -/
theorem missing_dir_signals :
    load_environment_data none = .ok ⟨["data 폴더를 찾을 수 없습니다."], []⟩
  ∧ load_growth_data none =
      .error "FileNotFoundError: [Errno 2] No such file or directory: 'data'" :=
  ⟨rfl, rfl⟩

/-- Does the entry resolved for `fname` (if any) hold CSV content? -/
def resolvedIsCsv (dir : List FileEntry) (fname : String) : Bool :=
  match find_file_by_name dir fname with
  | some f =>
    match f.content with
    | .csv _ => true
    | _ => false
  | none => true

/-- The environment-loading loop, over any expected-file list: it never
raises as long as resolved entries are CSVs, the loaded dict holds exactly
the schools whose file resolved (in order), and one error message is shown
per unresolved file. -/
lemma loadEnvLoop_spec (dir : List FileEntry) (fnames : List String)
    (h : ∀ fname ∈ fnames, resolvedIsCsv dir fname = true) :
    ∃ r, loadEnvLoop dir fnames = .ok r
      ∧ r.data.map Prod.fst =
          (fnames.filter (fun fn => (find_file_by_name dir fn).isSome)).map schoolOf
      ∧ r.messages =
          (fnames.filter (fun fn => (find_file_by_name dir fn).isNone)).map
            (fun fn => fn ++ " 파일을 찾을 수 없습니다.") := by
  induction fnames with
  | nil => exact ⟨⟨[], []⟩, rfl, rfl, rfl⟩
  | cons fn rest ih =>
    obtain ⟨r, hr, hd, hm⟩ := ih (fun f hf => h f (List.mem_cons_of_mem fn hf))
    have hfn := h fn (List.mem_cons_self fn rest)
    rcases hff : find_file_by_name dir fn with _ | f
    · refine ⟨⟨(fn ++ " 파일을 찾을 수 없습니다.") :: r.messages, r.data⟩, ?_, ?_, ?_⟩
      · rw [loadEnvLoop]
        simp only [hff, hr]
      · simp [hff, hd]
      · simp [hff, hm]
    · simp only [resolvedIsCsv, hff] at hfn
      rcases hcontent : f.content with t | s
      case xlsx => rw [hcontent] at hfn; simp at hfn
      case other => rw [hcontent] at hfn; simp at hfn
      case csv =>
        refine ⟨⟨r.messages, (schoolOf fn, t) :: r.data⟩, ?_, ?_, ?_⟩
        · rw [loadEnvLoop]
          simp only [hff, read_csv, hcontent, hr]
        · simp [hff, hd]
        · simp [hff, hm]

/-- Claim C6: when an individual site's file cannot be resolved, loading
continues: the remaining sites are loaded in order, the failing site is
absent from the dict (and hence from all downstream aggregation, which
only sees the dict), and a per-site error message is displayed for it. -/
theorem env_load_partial (dir : List FileEntry)
    (h : ∀ fname ∈ env_files, resolvedIsCsv dir fname = true) :
    ∃ r, load_environment_data (some dir) = .ok r
      ∧ r.data.map Prod.fst =
          (env_files.filter (fun fn => (find_file_by_name dir fn).isSome)).map schoolOf
      ∧ r.messages =
          (env_files.filter (fun fn => (find_file_by_name dir fn).isNone)).map
            (fun fn => fn ++ " 파일을 찾을 수 없습니다.") :=
  loadEnvLoop_spec dir env_files h

/-- A data directory holding three of the four expected site files
(아라고's file is missing). -/
def c6dir : List FileEntry :=
  [⟨"송도고_환경데이터.csv", .csv []⟩, ⟨"하늘고_환경데이터.csv", .csv []⟩,
   ⟨"동산고_환경데이터.csv", .csv []⟩]

/-- Witness for C6: loading against `c6dir` succeeds with a partial dict
and one error message for the missing 아라고 file. -/
theorem env_load_partial_witness :
    ∃ r, load_environment_data (some c6dir) = .ok r
      ∧ r.data.map Prod.fst =
          (env_files.filter (fun fn => (find_file_by_name c6dir fn).isSome)).map schoolOf
      ∧ r.messages =
          (env_files.filter (fun fn => (find_file_by_name c6dir fn).isNone)).map
            (fun fn => fn ++ " 파일을 찾을 수 없습니다.") :=
  env_load_partial c6dir (by decide)

/-- The summary fold appends one row per sheet and sums the row counts,
for any starting accumulator. -/
lemma tab1Loop_go (g : List (String × Table)) :
    ∀ acc : List SummaryRow × Nat,
      (g.foldl tab1Step acc).1.length = acc.1.length + g.length
    ∧ (g.foldl tab1Step acc).2 = acc.2 + (g.map (fun p => p.2.length)).sum := by
  induction g with
  | nil => intro acc; simp
  | cons p rest ih =>
    intro acc
    simp only [List.foldl_cons, List.map_cons, List.sum_cons]
    obtain ⟨h1, h2⟩ := ih (tab1Step acc p)
    refine ⟨?_, ?_⟩
    · rw [h1, tab1Step]
      simp
      omega
    · rw [h2, tab1Step]
      simp
      omega

/-- Claim C7: when the loaded growth dict has exactly four sheets, the
overview summary table has exactly four rows (one per sheet) and the
total plant count equals the sum of the per-sheet row counts. -/
theorem summary_table_four_rows (dir : List FileEntry) (r : LoadResult)
    (h1 : load_growth_data (some dir) = .ok r) (h2 : r.data.length = 4) :
    (summaryRows r.data).length = 4
  ∧ totalPlants r.data = (r.data.map (fun p => p.2.length)).sum := by
  obtain ⟨hl, hs⟩ := tab1Loop_go r.data ([], 0)
  refine ⟨?_, ?_⟩
  · rw [summaryRows, tab1Loop, hl]
    simpa using h2
  · rw [totalPlants, tab1Loop, hs]
    simp

/-- The four growth sheets of the concrete workbook used as witness:
row counts 2, 1, 0, 0. -/
def c7sheets : List (String × Table) :=
  [("송도고", [[("생중량(g)", some 3)], [("생중량(g)", some 5)]]),
   ("하늘고", [[("생중량(g)", some 4)]]),
   ("아라고", []),
   ("동산고", [])]

/-- A data directory holding exactly one workbook with the four sheets. -/
def c7dir : List FileEntry := [⟨"4개교_생육결과데이터.xlsx", .xlsx c7sheets⟩]

/-- Witness for C7: the full load-and-aggregate pipeline on `c7dir` yields
a four-row summary and a total equal to the sum of sheet row counts. -/
theorem summary_table_four_rows_witness :
    (summaryRows (LoadResult.mk [] c7sheets).data).length = 4
  ∧ totalPlants (LoadResult.mk [] c7sheets).data =
      ((LoadResult.mk [] c7sheets).data.map (fun p => p.2.length)).sum :=
  summary_table_four_rows c7dir ⟨[], c7sheets⟩ rfl rfl

/-- Claim C9: whenever the overview tab renders (for any environmental
dict and any loaded growth dict), the fourth metric, "최적 EC", is the
fixed string literal `"2.0 (하늘고)"` — it does not depend on the growth
data at all; by contrast, the growth-results tab's best-site selection
does vary with the data. -/
theorem overview_optimal_ec_constant (env g : List (String × Table))
    (v : Tab1View) (h : renderTab1 env g = .ok v) :
    v.optimalEC = "2.0 (하늘고)"
  ∧ ∃ g1 g2 r1 r2, best_row g1 = .ok r1 ∧ best_row g2 = .ok r2 ∧
      decide (r1.school = r2.school) = false := by
  refine ⟨?_, ?_⟩
  · rw [renderTab1] at h
    split at h
    · exact absurd h (by simp)
    · simp only [Except.ok.injEq] at h
      subst h
      rfl
  · refine ⟨[("송도고", wtable)], g4, ⟨"송도고", some 1, some 5⟩,
      ⟨"아라고", some 4, some 5⟩, ?_, ?_, by decide⟩
    · simp [best_row, weightRows, dictGet, EC_INFO, seriesMean, getCol,
        getCell, wtable, idxmax, idxmaxCore]
    · simp [best_row, weightRows, g4, wtable, dictGet, EC_INFO, seriesMean,
        getCol, getCell, idxmax, idxmaxCore]

/-- Witness for C9: the overview rendered over one environmental table and
an empty growth dict displays the constant optimal-EC string. -/
theorem overview_optimal_ec_constant_witness :
    (Tab1View.mk [] 0 (some 20) none "2.0 (하늘고)").optimalEC = "2.0 (하늘고)"
  ∧ ∃ g1 g2 r1 r2, best_row g1 = .ok r1 ∧ best_row g2 = .ok r2 ∧
      decide (r1.school = r2.school) = false :=
  overview_optimal_ec_constant [("송도고", [[("temperature", some 20)]])] []
    ⟨[], 0, some 20, none, "2.0 (하늘고)"⟩
    (by simp [renderTab1, pdConcat, summaryRows, totalPlants, tab1Loop,
      seriesMean, getCol, getCell])

/-- Claim C10: the growth loader takes the first directory entry, in
iteration order, whose lowercased extension is `.xlsx` (case-insensitive
extension match), and loads all of that workbook's sheets into the dict
keyed by sheet name. -/
theorem growth_loads_first_xlsx (pre post : List FileEntry) (f : FileEntry)
    (sheets : List (String × Table))
    (hpre : ∀ g ∈ pre, isXlsxName g.name = false)
    (hf : isXlsxName f.name = true)
    (hc : f.content = .xlsx sheets) :
    load_growth_data (some (pre ++ f :: post)) = .ok ⟨[], sheets⟩ := by
  have hfind : (pre ++ f :: post).find? (fun e => isXlsxName e.name) = some f := by
    induction pre with
    | nil => simp [List.find?_cons, hf]
    | cons a rest ih =>
      have ha := hpre a (List.mem_cons_self a rest)
      rw [List.cons_append, List.find?_cons_of_neg _ (by simp [ha])]
      exact ih (fun g hg => hpre g (List.mem_cons_of_mem a hg))
  simp only [load_growth_data, hfind, readWorkbook, hc]

/-- The non-workbook entries preceding the workbook in iteration order. -/
def c10pre : List FileEntry := [⟨"notes.txt", .other⟩, ⟨"송도고_환경데이터.csv", .csv []⟩]

/-- The sheets of the witness workbook. -/
def c10sheets : List (String × Table) := [("송도고", []), ("하늘고", [])]

/-- The witness workbook, with an upper-case extension. -/
def c10f : FileEntry := ⟨"생육결과.XLSX", .xlsx c10sheets⟩

/-- Witness for C10: in a directory whose first workbook (by iteration
order) has an upper-case `.XLSX` extension and is followed by another
workbook, exactly the first workbook's sheets are loaded. -/
theorem growth_loads_first_xlsx_witness :
    load_growth_data (some (c10pre ++ c10f :: [⟨"다른.xlsx", .xlsx []⟩])) =
      .ok ⟨[], c10sheets⟩ :=
  growth_loads_first_xlsx c10pre [⟨"다른.xlsx", .xlsx []⟩] c10f c10sheets
    (by decide) (by decide) rfl

end Dashboard
